import Mathlib

/-!
Verification of the ChainBench core against its specification.

The embedding is a shallow model of the Python sources:
* `src/report-builder/build_report.py` — statistics engine, verdict rule,
  impact projector, report aggregation,
* `src/tools/convert_to_report.py` — the alternate-format converter's own
  verdict computation,
* `src/data/generate_data.py` — dataset generation / verification.

Modelling conventions: Python floats are modelled as exact rationals (ℚ);
`statistics.stdev`'s square root is abstracted as a function parameter
`sqrt : ℚ → ℚ` because no verified property depends on its value (the code
only takes that branch for `n > 1`, and every property proved here holds for
an arbitrary `sqrt`).  SHA-256, the seeded pseudo-random generator and the
float64 byte serialisation are likewise abstracted as function parameters,
since the properties at stake (hash recomputation over identical bytes,
fail-closed behaviour) are independent of the concrete functions.
-/

namespace ChainBench

/-! ## Statistics Engine — `calculate_stats` (build_report.py lines 37-68,
identically duplicated in convert_to_report.py lines 45-77) -/

/-- The Statistics Record produced by `calculate_stats`: six rational fields. -/
structure StatsRecord where
  median : ℚ
  mean : ℚ
  std : ℚ
  cv_pct : ℚ
  p10 : ℚ
  p90 : ℚ
  deriving DecidableEq

/-- `sorted_samples = sorted(samples)` — the sorted copy of the sample list. -/
def sortedCopy (samples : List ℚ) : List ℚ := samples.insertionSort (· ≤ ·)

/-- `statistics.median` on an already-sorted list: the middle element for odd
length, the average of the two middle elements for even length. -/
def medianOfSorted (s : List ℚ) : ℚ :=
  if s.length % 2 = 1 then s.getD (s.length / 2) 0
  else (s.getD (s.length / 2 - 1) 0 + s.getD (s.length / 2) 0) / 2

/-- The Bessel-corrected sample variance used inside `statistics.stdev`:
`Σ (x - mean)² / (n - 1)`. -/
def sampleVariance (s : List ℚ) (mean : ℚ) : ℚ :=
  ((s.map fun x => (x - mean) ^ 2).sum) / ((s.length : ℚ) - 1)

/-- `p10_idx = int(n * 0.1)` — exact-rational floor of `n/10`. -/
def p10Index (n : Nat) : Nat := n / 10

/-- `p90_idx = int(n * 0.9)` — exact-rational floor of `9n/10`. -/
def p90Index (n : Nat) : Nat := n * 9 / 10

/-- `calculate_stats` (build_report.py lines 37-68).  Empty input returns the
all-zero record; otherwise all fields are computed from the sorted copy, with
`std = stdev` only when `n > 1` and `cv_pct = std/mean*100` only when
`mean > 0`. -/
def calculate_stats (sqrt : ℚ → ℚ) (samples : List ℚ) : StatsRecord :=
  if samples = [] then
    { median := 0, mean := 0, std := 0, cv_pct := 0, p10 := 0, p90 := 0 }
  else
    let s := sortedCopy samples
    let n := s.length
    let median := medianOfSorted s
    let mean := s.sum / (n : ℚ)
    let std := if 1 < n then sqrt (sampleVariance s mean) else 0
    let cv_pct := if 0 < mean then std / mean * 100 else 0
    { median := median, mean := mean, std := std, cv_pct := cv_pct,
      p10 := s.getD (p10Index n) 0, p90 := s.getD (p90Index n) 0 }

/-! ## Verdict rules -/

/-- `determine_verdict` (build_report.py lines 71-80): three branches in
order — both CV% < 5 → conclusive; either CV% > 15 → inconclusive;
otherwise conclusive. -/
def determine_verdict (baseline_stats optimized_stats : StatsRecord) : String :=
  if baseline_stats.cv_pct < 5 ∧ optimized_stats.cv_pct < 5 then "conclusive"
  else if baseline_stats.cv_pct > 15 ∨ optimized_stats.cv_pct > 15 then "inconclusive"
  else "conclusive"

/-- The converter's inline verdict (convert_to_report.py line 144):
`'conclusive' if both cv_pct < 5.0 else 'inconclusive'`. -/
def converter_verdict (baseline_stats optimized_stats : StatsRecord) : String :=
  if baseline_stats.cv_pct < 5 ∧ optimized_stats.cv_pct < 5 then "conclusive"
  else "inconclusive"

/-! ## Impact Projector — `calculate_impact` (build_report.py lines 83-105) -/

/-- The recognised impact configuration options (the code also carries an
inert `cost_model` label, omitted here as it enters no formula). -/
structure ImpactInputs where
  executions_per_day : ℚ
  days_per_year : ℚ
  cost_per_hour_eur : ℚ
  electricity_kwh_per_hour : ℚ
  co2_kg_per_kwh : ℚ
  deriving DecidableEq

/-- The four projected outputs. -/
structure ImpactOutputs where
  time_saved_hours_per_year : ℚ
  cost_saved_eur_per_year : ℚ
  electricity_saved_kwh_per_year : ℚ
  co2_avoided_kg_per_year : ℚ
  deriving DecidableEq

/-- `calculate_impact` (build_report.py lines 83-105), formula for formula. -/
def calculate_impact (delta_ms : ℚ) (inputs : ImpactInputs) : ImpactOutputs :=
  let time_saved_hours_per_year :=
    delta_ms * inputs.executions_per_day * inputs.days_per_year / 3600000
  let electricity_saved_kwh_per_year :=
    time_saved_hours_per_year * inputs.electricity_kwh_per_hour
  { time_saved_hours_per_year := time_saved_hours_per_year,
    cost_saved_eur_per_year := time_saved_hours_per_year * inputs.cost_per_hour_eur,
    electricity_saved_kwh_per_year := electricity_saved_kwh_per_year,
    co2_avoided_kg_per_year := electricity_saved_kwh_per_year * inputs.co2_kg_per_kwh }

/-- The fixed default configuration built inline in `build_report`
(build_report.py lines 148-155): 100 executions/day, 250 days/year,
0.50 EUR/h, 0.15 kWh/h, 0.475 kg CO2/kWh. -/
def default_impact_inputs : ImpactInputs :=
  { executions_per_day := 100, days_per_year := 250,
    cost_per_hour_eur := 1/2, electricity_kwh_per_hour := 3/20,
    co2_kg_per_kwh := 19/40 }

/-! ## Report Aggregator — `build_report` (build_report.py lines 126-243)

The model keeps the computed core of the report: statistics, delta, gain,
verdict, impact and the benchmark fields derived from the runner summary.
Provenance fields that are pure I/O reads (report id, timestamps, hostname,
git commit) and constant string fields are outside the shallow embedding. -/

/-- The runner summary fields `build_report` reads via `.get`: an absent key
(or a JSON `null` for `cpu_affinity`) is `none`. -/
structure RunnerSummary where
  baseline_samples : Option (List ℚ)
  optimized_samples : Option (List ℚ)
  warmup : Option ℤ
  runs : Option ℤ
  repeat_count : Option ℤ
  cpu_affinity : Option ℤ

/-- The computed part of the built report. -/
structure Report where
  warmup : ℤ
  runs : ℤ
  repeat_count : ℤ
  cpu_affinity : ℤ
  baseline_samples : List ℚ
  optimized_samples : List ℚ
  baseline_status : List String
  optimized_status : List String
  baseline_stats : StatsRecord
  optimized_stats : StatsRecord
  delta_ms : ℚ
  gain_pct : ℚ
  verdict : String
  impact_inputs : ImpactInputs
  impact_outputs : ImpactOutputs

/-- `build_report` (build_report.py lines 126-243): missing sample keys
default to `[]`; `gain_pct` is 0 unless the baseline median is strictly
positive; `cpu_affinity` uses Python `or`-defaulting (`... or 2`), so a
falsy stored value (absent, null or 0) becomes 2. -/
def build_report (sqrt : ℚ → ℚ) (runner_summary : RunnerSummary) : Report :=
  let baseline_samples := runner_summary.baseline_samples.getD []
  let optimized_samples := runner_summary.optimized_samples.getD []
  let baseline_stats := calculate_stats sqrt baseline_samples
  let optimized_stats := calculate_stats sqrt optimized_samples
  let delta_ms := baseline_stats.median - optimized_stats.median
  let gain_pct := if baseline_stats.median > 0 then delta_ms / baseline_stats.median * 100 else 0
  { warmup := runner_summary.warmup.getD 5,
    runs := runner_summary.runs.getD 30,
    repeat_count := runner_summary.repeat_count.getD 50,
    cpu_affinity :=
      match runner_summary.cpu_affinity with
      | some v => if v = 0 then 2 else v
      | none => 2,
    baseline_samples := baseline_samples,
    optimized_samples := optimized_samples,
    baseline_status := List.replicate baseline_samples.length "success",
    optimized_status := List.replicate optimized_samples.length "success",
    baseline_stats := baseline_stats,
    optimized_stats := optimized_stats,
    delta_ms := delta_ms,
    gain_pct := gain_pct,
    verdict := determine_verdict baseline_stats optimized_stats,
    impact_inputs := default_impact_inputs,
    impact_outputs := calculate_impact delta_ms default_impact_inputs }

/-! ## Dataset Authority — `generate_dataset` / `verify_dataset`
(generate_data.py lines 18-137)

Files are byte lists in an abstract directory; `metadata.json` is held in its
parsed form (JSON encoding is plumbing outside the embedding).  The SHA-256
function, the float64 serialisation and the seeded normal sampler are
abstract function parameters. -/

abbrev Bytes := List Nat

/-- The parsed content of `metadata.json` (generate_data.py lines 59-75). -/
structure DatasetMetadata where
  hash_sha256 : String
  N : Nat
  M : Nat
  D : Nat
  seed : Int
  embeddings_file : String
  axes_file : String
  embeddings_shape : Nat × Nat
  axes_shape : Nat × Nat
  size_embeddings : Nat
  size_axes : Nat
  size_total : Nat

/-- The dataset directory: named binary files, plus the metadata and lock
files in parsed form. -/
structure DirState where
  files : String → Option Bytes
  metadata : Option DatasetMetadata
  lock : Option String

/-- Write one binary file into the directory. -/
def DirState.writeFile (d : DirState) (name : String) (content : Bytes) : DirState :=
  { d with files := fun s => if s = name then some content else d.files s }

/-- `generate_dataset` (generate_data.py lines 18-92): draw N×D then M×D
values from the seeded generator, write both arrays, hash
`embeddings_bytes ++ axes_bytes` (no separator), write metadata and the bare
lock hash.  `randn` threads the generator state; `toBytes` is the row-major
float64 serialisation. -/
def generate_dataset {F R : Type} (seedFn : Int → R) (randn : R → Nat → List F × R)
    (toBytes : List F → Bytes) (hash : Bytes → String)
    (N M D : Nat) (seed : Int) (dir : DirState) : DatasetMetadata × DirState :=
  let r0 := seedFn seed
  let embeddings := (randn r0 (N * D)).1
  let r1 := (randn r0 (N * D)).2
  let axes := (randn r1 (M * D)).1
  let eb := toBytes embeddings
  let ab := toBytes axes
  let dataset_hash := hash (eb ++ ab)
  let md : DatasetMetadata :=
    { hash_sha256 := dataset_hash, N := N, M := M, D := D, seed := seed,
      embeddings_file := "embeddings.f64", axes_file := "axes.f64",
      embeddings_shape := (N, D), axes_shape := (M, D),
      size_embeddings := N * D * 8, size_axes := M * D * 8,
      size_total := (N * D + M * D) * 8 }
  let dir1 := (dir.writeFile "embeddings.f64" eb).writeFile "axes.f64" ab
  (md, { dir1 with metadata := some md, lock := some dataset_hash })

/-- `verify_dataset` (generate_data.py lines 95-137).  `.ok (b, reason)`
models an ordinary return of `b` with the printed diagnostic; `.error msg`
models an uncaught Python exception.  The reshape calls raise when the
decoded element count does not match the recorded shape, exactly as
`np.fromfile(...).reshape(N, D)` does. -/
def verify_dataset {F : Type} (fromBytes : Bytes → List F) (toBytes : List F → Bytes)
    (hash : Bytes → String) (dir : DirState) : Except String (Bool × String) :=
  match dir.metadata with
  | none => .ok (false, "metadata.json not found")
  | some md =>
    match dir.files md.embeddings_file with
    | none => .ok (false, md.embeddings_file ++ " not found")
    | some eb =>
      match dir.files md.axes_file with
      | none => .ok (false, md.axes_file ++ " not found")
      | some ab =>
        let N := md.embeddings_shape.1
        let D := md.embeddings_shape.2
        let M := md.axes_shape.1
        let embeddings := fromBytes eb
        if embeddings.length ≠ N * D then .error "cannot reshape embeddings array"
        else
          let axes := fromBytes ab
          if axes.length ≠ M * D then .error "cannot reshape axes array"
          else
            let calculated_hash := hash (toBytes embeddings ++ toBytes axes)
            if calculated_hash ≠ md.hash_sha256 then .ok (false, "Hash mismatch")
            else .ok (true, "Dataset verified")

/-- The standard order-statistic median, written from the spec's words: sort
the sequence; for even length take the average of the two middle values, for
odd length the exact middle value.  Used only to compare `calculate_stats`
against the specification. -/
def orderStatMedian (S : List ℚ) : ℚ :=
  let s := S.insertionSort (· ≤ ·)
  if s.length % 2 = 0 then (s.getD (s.length / 2 - 1) 0 + s.getD (s.length / 2) 0) / 2
  else s.getD (s.length / 2) 0

/-! ## Helper lemmas -/

theorem sortedCopy_eq_of_perm {l₁ l₂ : List ℚ} (h : l₁.Perm l₂) :
    sortedCopy l₁ = sortedCopy l₂ :=
  List.eq_of_perm_of_sorted
    ((List.perm_insertionSort _ _).trans (h.trans (List.perm_insertionSort _ _).symm))
    (List.sorted_insertionSort _ _) (List.sorted_insertionSort _ _)

/-! ## Claim theorems -/

/-- C2: `determine_verdict` returns `conclusive` exactly when both CV% are
strictly below 5, or neither exceeds 15 (the tolerant middle band); in
particular a CV% of exactly 5 or exactly 15 on one side, with the other side
not above 15, yields `conclusive`. -/
theorem determine_verdict_three_branches (bs os : StatsRecord) :
    (determine_verdict bs os = "conclusive" ↔
      (bs.cv_pct < 5 ∧ os.cv_pct < 5) ∨ (bs.cv_pct ≤ 15 ∧ os.cv_pct ≤ 15)) ∧
    ((bs.cv_pct = 5 ∨ bs.cv_pct = 15) → os.cv_pct ≤ 15 →
      determine_verdict bs os = "conclusive") := by
  constructor
  · unfold determine_verdict
    split_ifs with h1 h2
    · simp only [true_iff]
      exact Or.inl h1
    · constructor
      · intro h
        exact absurd h (by decide)
      · rintro (h | ⟨hb, ho⟩)
        · exact absurd h h1
        · rcases h2 with h2 | h2 <;> exact absurd h2 (not_lt.mpr (by assumption))
    · push_neg at h2
      simp only [true_iff]
      exact Or.inr ⟨h2.1, h2.2⟩
  · intro hb ho
    unfold determine_verdict
    have hb15 : bs.cv_pct ≤ 15 := by
      rcases hb with h | h
      · rw [h]; norm_num
      · rw [h]
    split_ifs with h1 h2
    · rfl
    · rcases h2 with h2 | h2
      · exact absurd h2 (not_lt.mpr hb15)
      · exact absurd h2 (not_lt.mpr ho)
    · rfl

/-- Witness for C2: CV% pair (5, 10) — exactly on the lower boundary — yields
`conclusive`, instantiating both the characterisation and the boundary part. -/
theorem determine_verdict_three_branches_witness :
    determine_verdict ⟨0, 0, 0, 5, 0, 0⟩ ⟨0, 0, 0, 10, 0, 0⟩ = "conclusive" :=
  (determine_verdict_three_branches ⟨0, 0, 0, 5, 0, 0⟩ ⟨0, 0, 0, 10, 0, 0⟩).2
    (Or.inl rfl) (by norm_num)

/-- C1 counterexample: with both CV% equal to 10 (the middle band), the
converter path returns `inconclusive` while the report-builder path returns
`conclusive`, so the two verdict computations are not the same function. -/
theorem converter_vs_builder_counterexample :
    converter_verdict ⟨0, 0, 0, 10, 0, 0⟩ ⟨0, 0, 0, 10, 0, 0⟩ ≠
      determine_verdict ⟨0, 0, 0, 10, 0, 0⟩ ⟨0, 0, 0, 10, 0, 0⟩ := by
  decide

/-- C1 (amended): the converter's verdict agrees with the report builder's
exactly when both CV% are strictly below 5 or either is strictly above 15;
on the middle band the converter says `inconclusive` while the builder says
`conclusive`. -/
theorem converter_builder_agreement (bs os : StatsRecord) :
    converter_verdict bs os = determine_verdict bs os ↔
      (bs.cv_pct < 5 ∧ os.cv_pct < 5) ∨ (15 < bs.cv_pct ∨ 15 < os.cv_pct) := by
  unfold converter_verdict determine_verdict
  split_ifs with h1 h2
  · simp only [true_iff]
    exact Or.inl h1
  · simp only [true_iff]
    exact Or.inr h2
  · constructor
    · intro h
      exact absurd h (by decide)
    · rintro (h | h)
      · exact absurd h h1
      · exact absurd h h2

/-- C5: `calculate_stats` never fails on degenerate inputs — the empty list
yields the all-zero record, and a singleton `[x]` yields
median = mean = x, std = 0, cv_pct = 0, p10 = p90 = x. -/
theorem calculate_stats_degenerate (sqrt : ℚ → ℚ) (x : ℚ) :
    calculate_stats sqrt [] = ⟨0, 0, 0, 0, 0, 0⟩ ∧
    calculate_stats sqrt [x] = ⟨x, x, 0, 0, x, x⟩ := by
  refine ⟨rfl, ?_⟩
  unfold calculate_stats
  rw [if_neg (by simp)]
  simp [sortedCopy, List.insertionSort, List.orderedInsert, medianOfSorted,
    p10Index, p90Index]

/-- C6: `calculate_stats` is invariant under permutation of the samples
(every field is a function of the sorted copy), and on non-empty input its
median equals the standard order-statistic median. -/
theorem calculate_stats_perm_invariant (sqrt : ℚ → ℚ) (S Sp : List ℚ) (h : Sp.Perm S) :
    calculate_stats sqrt Sp = calculate_stats sqrt S ∧
    (S ≠ [] → (calculate_stats sqrt S).median = orderStatMedian S) := by
  constructor
  · by_cases hS : S = []
    · subst hS
      rw [List.perm_nil.mp h]
    · have hSp : Sp ≠ [] := by
        intro e
        exact hS (by
          have := h.length_eq
          rw [e] at this
          exact List.length_eq_zero.mp this.symm)
      unfold calculate_stats
      rw [if_neg hSp, if_neg hS, sortedCopy_eq_of_perm h]
  · intro hS
    unfold calculate_stats
    rw [if_neg hS]
    show medianOfSorted (sortedCopy S) = orderStatMedian S
    unfold medianOfSorted orderStatMedian sortedCopy
    rcases Nat.mod_two_eq_zero_or_one (S.insertionSort (· ≤ ·)).length with hp | hp
    · rw [if_neg (by omega), if_pos hp]
    · rw [if_pos hp, if_neg (by omega)]

/-- Witness for C6: `[2, 1]` is a permutation of `[1, 2]`; the statistics
agree and the median is the order-statistic median. -/
theorem calculate_stats_perm_invariant_witness :
    calculate_stats id [2, 1] = calculate_stats id [1, 2] ∧
    (calculate_stats id [1, 2]).median = orderStatMedian [1, 2] :=
  ⟨(calculate_stats_perm_invariant id [1, 2] [2, 1] (by decide)).1,
   (calculate_stats_perm_invariant id [1, 2] [2, 1] (by decide)).2 (by decide)⟩

/-- C7: the impact projection is linear in the latency delta — doubling
`delta_ms` exactly doubles `cost_saved_eur_per_year` — and a negative delta
is legal, producing strictly negative time and cost projections whenever the
configuration constants are strictly positive. -/
theorem calculate_impact_linear (d : ℚ) (inputs : ImpactInputs) :
    (calculate_impact (2 * d) inputs).cost_saved_eur_per_year =
      2 * (calculate_impact d inputs).cost_saved_eur_per_year ∧
    (d < 0 → 0 < inputs.executions_per_day → 0 < inputs.days_per_year →
      0 < inputs.cost_per_hour_eur →
      (calculate_impact d inputs).time_saved_hours_per_year < 0 ∧
      (calculate_impact d inputs).cost_saved_eur_per_year < 0) := by
  constructor
  · show 2 * d * inputs.executions_per_day * inputs.days_per_year / 3600000 *
        inputs.cost_per_hour_eur =
      2 * (d * inputs.executions_per_day * inputs.days_per_year / 3600000 *
        inputs.cost_per_hour_eur)
    ring
  · intro hd he hy hc
    have ht : d * inputs.executions_per_day * inputs.days_per_year / 3600000 < 0 := by
      apply div_neg_of_neg_of_pos
      · exact mul_neg_of_neg_of_pos (mul_neg_of_neg_of_pos hd he) hy
      · norm_num
    exact ⟨ht, mul_neg_of_neg_of_pos ht hc⟩

/-- Witness for C7: delta = −1 with the default configuration gives strictly
negative time and cost projections. -/
theorem calculate_impact_linear_witness :
    (calculate_impact (-1) default_impact_inputs).time_saved_hours_per_year < 0 ∧
    (calculate_impact (-1) default_impact_inputs).cost_saved_eur_per_year < 0 :=
  (calculate_impact_linear (-1) default_impact_inputs).2 (by norm_num)
    (by norm_num [default_impact_inputs]) (by norm_num [default_impact_inputs])
    (by norm_num [default_impact_inputs])

/-- C8: for every non-empty sample list, the nearest-rank indices
`int(n*0.1)` and `int(n*0.9)` used by `calculate_stats` are strictly below
the length of the sorted copy, so the percentile lookups are in bounds. -/
theorem percentile_indices_in_bounds (samples : List ℚ) (h : samples ≠ []) :
    p10Index (sortedCopy samples).length < (sortedCopy samples).length ∧
    p90Index (sortedCopy samples).length < (sortedCopy samples).length := by
  have hn : 0 < (sortedCopy samples).length := by
    rw [sortedCopy, List.length_insertionSort]
    exact List.length_pos.mpr h
  unfold p10Index p90Index
  omega

/-- Witness for C8: the singleton list `[1]` has both indices equal to 0,
strictly below length 1. -/
theorem percentile_indices_in_bounds_witness :
    p10Index (sortedCopy [(1 : ℚ)]).length < (sortedCopy [(1 : ℚ)]).length ∧
    p90Index (sortedCopy [(1 : ℚ)]).length < (sortedCopy [(1 : ℚ)]).length :=
  percentile_indices_in_bounds [1] (by decide)

/-- C9: `build_report` treats an absent `baseline_samples` or
`optimized_samples` key as the empty sample list and still produces the full
report (the model is a total function), and `gain_pct` is 0 whenever the
baseline median is not strictly positive. -/
theorem build_report_missing_keys (sqrt : ℚ → ℚ) (rs : RunnerSummary) :
    (rs.baseline_samples = none →
      (build_report sqrt rs).baseline_samples = [] ∧
      (build_report sqrt rs).baseline_stats = calculate_stats sqrt []) ∧
    (rs.optimized_samples = none →
      (build_report sqrt rs).optimized_samples = [] ∧
      (build_report sqrt rs).optimized_stats = calculate_stats sqrt []) ∧
    ((calculate_stats sqrt (rs.baseline_samples.getD [])).median ≤ 0 →
      (build_report sqrt rs).gain_pct = 0) := by
  refine ⟨fun h => ?_, fun h => ?_, fun h => ?_⟩
  · constructor <;> simp [build_report, h]
  · constructor <;> simp [build_report, h]
  · show (if _ > 0 then _ else 0) = 0
    rw [if_neg (not_lt.mpr h)]

/-- Witness for C9: a runner summary with both sample keys absent yields
empty samples and `gain_pct = 0`. -/
theorem build_report_missing_keys_witness :
    (build_report id
        { baseline_samples := none, optimized_samples := none, warmup := none,
          runs := none, repeat_count := none, cpu_affinity := none }).baseline_samples = [] ∧
    (build_report id
        { baseline_samples := none, optimized_samples := none, warmup := none,
          runs := none, repeat_count := none, cpu_affinity := none }).gain_pct = 0 :=
  ⟨((build_report_missing_keys id _).1 rfl).1,
   (build_report_missing_keys id _).2.2 (le_of_eq (by norm_num [calculate_stats]))⟩

/-- C10: the report's `benchmark.cpu_affinity` equals the runner summary's
value only when that value is truthy; an absent (or null) value and an
explicit 0 are both reported as 2, because the code defaults with Python
`or` (`runner_summary.get('cpu_affinity') or 2`). -/
theorem build_report_cpu_affinity (sqrt : ℚ → ℚ) (rs : RunnerSummary) (v : ℤ) :
    (rs.cpu_affinity = some v → v ≠ 0 → (build_report sqrt rs).cpu_affinity = v) ∧
    (rs.cpu_affinity = none → (build_report sqrt rs).cpu_affinity = 2) ∧
    (rs.cpu_affinity = some 0 → (build_report sqrt rs).cpu_affinity = 2) := by
  refine ⟨fun h hv => ?_, fun h => ?_, fun h => ?_⟩ <;> simp [build_report, h]
  intro e
  exact absurd e hv

/-- Witness for C10: an explicitly recorded affinity of CPU core 0 is
reported as core 2. -/
theorem build_report_cpu_affinity_witness :
    (build_report id
        { baseline_samples := none, optimized_samples := none, warmup := none,
          runs := none, repeat_count := none, cpu_affinity := some 0 }).cpu_affinity = 2 :=
  (build_report_cpu_affinity id _ 0).2.2 rfl

/-- C3: for strictly positive N, M, D and any seed, `generate_dataset`
followed by `verify_dataset` on the resulting directory returns true: the
stored hash is recomputed over `embeddings_bytes ++ axes_bytes` (no
separator) and compares equal.  `hrt` states that deserialising the written
bytes returns the written values, and `hdraw` that the generator draws the
requested number of values. -/
theorem generate_then_verify {F R : Type} (seedFn : Int → R)
    (randn : R → Nat → List F × R) (toBytes : List F → Bytes)
    (fromBytes : Bytes → List F) (hash : Bytes → String)
    (hrt : ∀ l : List F, fromBytes (toBytes l) = l)
    (hdraw : ∀ r n, ((randn r n).1).length = n)
    (N M D : Nat) (seed : Int) (dir : DirState)
    (hN : 0 < N) (hM : 0 < M) (hD : 0 < D) :
    verify_dataset fromBytes toBytes hash
      (generate_dataset seedFn randn toBytes hash N M D seed dir).2 =
      .ok (true, "Dataset verified") := by
  unfold generate_dataset verify_dataset DirState.writeFile
  simp only [hrt, hdraw]
  norm_num
  rw [if_neg (by decide : ¬("embeddings.f64" : String) = "axes.f64")]
  simp [hrt, hdraw]

/-- Witness for C3: a trivial concrete instantiation (identity serialisation,
constant hash, zero-filled generator) with N = M = D = 1 verifies. -/
theorem generate_then_verify_witness :
    verify_dataset (F := Nat) id id (fun _ => "h")
      (generate_dataset (R := Unit) (fun _ => ()) (fun _ n => (List.replicate n 0, ()))
        id (fun _ => "h") 1 1 1 0
        { files := fun _ => none, metadata := none, lock := none }).2 =
      .ok (true, "Dataset verified") :=
  generate_then_verify (fun _ => ()) (fun _ n => (List.replicate n 0, ())) id id
    (fun _ => "h") (fun _ => rfl) (fun _ n => List.length_replicate n 0) 1 1 1 0
    { files := fun _ => none, metadata := none, lock := none }
    (by decide) (by decide) (by decide)

/-- C4 counterexample: a directory whose metadata records embeddings shape
1×2 while the embeddings file decodes to a single element makes
`verify_dataset` raise (the `reshape` ValueError), rather than return false —
refuting the claim that a shape mismatch "never" yields an exception. -/
theorem verify_shape_mismatch_raises :
    verify_dataset (F := Nat) id id (fun _ => "h")
      { files := fun s =>
          if s = "embeddings.f64" then some [0]
          else if s = "axes.f64" then some [0] else none,
        metadata := some
          { hash_sha256 := "h", N := 1, M := 1, D := 2, seed := 0,
            embeddings_file := "embeddings.f64", axes_file := "axes.f64",
            embeddings_shape := (1, 2), axes_shape := (1, 2),
            size_embeddings := 16, size_axes := 16, size_total := 32 },
        lock := some "h" } = .error "cannot reshape embeddings array" := by
  rfl

/-- C4 (amended): `verify_dataset` fails closed with a diagnostic and returns
false for a missing metadata file, a missing array file, or a recomputed-hash
mismatch; but a mismatch between the recorded shapes and the decoded array
contents raises an exception (numpy `reshape` ValueError) instead of
returning false. -/
theorem verify_fails_closed {F : Type} (fromBytes : Bytes → List F)
    (toBytes : List F → Bytes) (hash : Bytes → String) (dir : DirState) :
    (dir.metadata = none →
      verify_dataset fromBytes toBytes hash dir =
        .ok (false, "metadata.json not found")) ∧
    (∀ md, dir.metadata = some md → dir.files md.embeddings_file = none →
      verify_dataset fromBytes toBytes hash dir =
        .ok (false, md.embeddings_file ++ " not found")) ∧
    (∀ md eb, dir.metadata = some md → dir.files md.embeddings_file = some eb →
      dir.files md.axes_file = none →
      verify_dataset fromBytes toBytes hash dir =
        .ok (false, md.axes_file ++ " not found")) ∧
    (∀ md eb ab, dir.metadata = some md → dir.files md.embeddings_file = some eb →
      dir.files md.axes_file = some ab →
      (fromBytes eb).length = md.embeddings_shape.1 * md.embeddings_shape.2 →
      (fromBytes ab).length = md.axes_shape.1 * md.embeddings_shape.2 →
      hash (toBytes (fromBytes eb) ++ toBytes (fromBytes ab)) ≠ md.hash_sha256 →
      verify_dataset fromBytes toBytes hash dir = .ok (false, "Hash mismatch")) ∧
    (∀ md eb ab, dir.metadata = some md → dir.files md.embeddings_file = some eb →
      dir.files md.axes_file = some ab →
      (fromBytes eb).length ≠ md.embeddings_shape.1 * md.embeddings_shape.2 →
      verify_dataset fromBytes toBytes hash dir =
        .error "cannot reshape embeddings array") := by
  refine ⟨fun h => ?_, fun md h1 h2 => ?_, fun md eb h1 h2 h3 => ?_,
    fun md eb ab h1 h2 h3 h4 h5 h6 => ?_, fun md eb ab h1 h2 h3 h4 => ?_⟩ <;>
    simp [verify_dataset, *]

/-- Witness for C4 (amended): an empty directory — no metadata file — makes
`verify_dataset` return false with the "not found" diagnostic. -/
theorem verify_fails_closed_witness :
    verify_dataset (F := Nat) id id (fun _ => "h")
      { files := fun _ => none, metadata := none, lock := none } =
      .ok (false, "metadata.json not found") :=
  (verify_fails_closed id id (fun _ => "h")
    { files := fun _ => none, metadata := none, lock := none }).1 rfl

end ChainBench
